import Mathlib

/-!
Shallow embedding of the rhythm-runner game core implemented in
`src/components/Visualizer.tsx`.

Numbers: the source runs on JavaScript doubles; the embedding uses `ℚ`
(every constant of the source — 0.6, -10, 0.15, 0.7, thresholds, sizes — is
exactly representable, and no claim here hinges on binary rounding; the
bin-cut indices `Math.floor(N * 0.15)` / `Math.floor(N * 0.7)` are modelled
as exact rational floors, which agrees with the float computation at the
boundaries the claims touch, in particular at `N = 0`).
A JavaScript division whose divisor is 0 (which in the source only arises
as `0 / 0 = NaN` in the spectrum sampler) is modelled by `jsDiv` returning
`none`.

`Rat`'s arithmetic is made semireducible so that concrete witnesses can be
checked by `decide` (the kernel itself never respects reducibility, so this
changes elaboration behaviour only).
-/

set_option allowUnsafeReducibility true
attribute [local semireducible] Rat.add Rat.sub Rat.mul Rat.inv

namespace RhythmRunner

/-! ### Game-engine constants (`Visualizer.tsx` lines 11-17) -/

def CANVAS_WIDTH : ℚ := 480

def CANVAS_HEIGHT : ℚ := 270

def GRAVITY : ℚ := 6/10

def JUMP_FORCE : ℚ := -10

def GROUND_HEIGHT : ℚ := 40

def SPAWN_X : ℚ := CANVAS_WIDTH + 50

/-! ### Entities (`Visualizer.tsx` lines 19-31) -/

inductive EntityType where
  | obstacle : EntityType
  | coin : EntityType
deriving DecidableEq, BEq

structure Entity where
  id : ℕ
  x : ℚ
  y : ℚ
  w : ℚ
  h : ℚ
  type : EntityType
  color : String
  collected : Bool
deriving DecidableEq

/-! ### Game state (`Visualizer.tsx` lines 45-68): the mutable record held in
the `gameState` ref. -/

structure GameState where
  playerY : ℚ
  playerVelY : ℚ
  isJumping : Bool
  groundY : ℚ
  scrollSpeed : ℚ
  distance : ℚ
  entities : List Entity
  nextId : ℕ
  bassCooldown : ℕ
  trebleCooldown : ℕ
  score : ℕ
  gameOver : Bool
  gameTime : ℕ
deriving DecidableEq

/-- The initial value of the `gameState` ref (`Visualizer.tsx` lines 45-68). -/
def initState : GameState where
  playerY := CANVAS_HEIGHT - GROUND_HEIGHT
  playerVelY := 0
  isJumping := false
  groundY := CANVAS_HEIGHT - GROUND_HEIGHT
  scrollSpeed := 4
  distance := 0
  entities := []
  nextId := 0
  bassCooldown := 0
  trebleCooldown := 0
  score := 0
  gameOver := false
  gameTime := 0

/-! ### Input handling (`Visualizer.tsx` lines 82-100): a jump intent from
keyboard/touch/mouse.  The `else if (state.playerY > state.groundY - 50)`
forgiveness branch of the source has an empty (commented-out) body, so it
performs no mutation. -/

def jumpIntent (s : GameState) (isPlaying : Bool) : GameState :=
  if !isPlaying || s.gameOver then s
  else if !s.isJumping then { s with playerVelY := JUMP_FORCE, isJumping := true }
  else s

/-! ### Reset-on-play effect (`Visualizer.tsx` lines 114-132).  Fires when the
external play state changes; `List ℕ` collects the `onScoreUpdate` calls. -/

def resetEffect (s : GameState) (isPlaying : Bool) : GameState × List ℕ :=
  if !isPlaying then (s, [])
  else if s.gameOver || s.gameTime == 0 then
    ({ s with
        playerY := CANVAS_HEIGHT - GROUND_HEIGHT
        playerVelY := 0
        isJumping := false
        entities := []
        score := 0
        gameOver := false
        gameTime := 0 }, [0])
  else (s, [])

/-! ### Spectrum sampler (`Visualizer.tsx` lines 156-178).  `jsDiv` models a
JavaScript division that may have divisor 0: in the source every such
division is `0 / 0`, i.e. `NaN`, modelled as `none`. -/

def jsDiv (a b : ℚ) : Option ℚ := if b = 0 then none else some (a / b)

/-- Index cut for the bass bins: `Math.floor(bufferLength * 0.15)`. -/
def bassEnd (n : ℕ) : ℕ := n * 15 / 100

/-- Index cut for the treble bins: `Math.floor(bufferLength * 0.7)`. -/
def trebleStart (n : ℕ) : ℕ := n * 7 / 10

/-- `bass`: sum of bins `0 ≤ i < bassEnd` divided by `bassEnd`. -/
def bassOf (data : List ℕ) : Option ℚ :=
  jsDiv ((data.take (bassEnd data.length)).sum : ℚ) ((bassEnd data.length : ℕ) : ℚ)

/-- `treble`: sum of bins `trebleStart ≤ i < N` divided by `N - trebleStart`. -/
def trebleOf (data : List ℕ) : Option ℚ :=
  jsDiv ((data.drop (trebleStart data.length)).sum : ℚ)
    ((data.length : ℚ) - ((trebleStart data.length : ℕ) : ℚ))

/-- `volume`: sum of all bins divided by `N`, then by 255. -/
def volumeOf (data : List ℕ) : Option ℚ :=
  Option.map (fun v => v / 255) (jsDiv ((data.sum : ℕ) : ℚ) ((data.length : ℚ)))

/-! ### Per-frame input.  `bass`, `treble`, `volume` are the scalar features
the sampler would deliver for this frame's spectrum snapshot; they are only
looked at when the gate `isPlaying && analyserPresent && !gameOver` of the
source's block 1 passes (otherwise the local `bass/treble/volume` variables
of `update` keep their initial value 0).  `coinHigh` models the
`Math.random() > 0.5` draw for the coin lane. -/

structure FrameInput where
  isPlaying : Bool
  analyserPresent : Bool
  bass : ℚ
  treble : ℚ
  volume : ℚ
  coinHigh : Bool
deriving DecidableEq

/-- Gate of the audio-analysis block (`if (isPlaying && analyser && !state.gameOver)`,
line 156). -/
def frameGate (s : GameState) (ip : FrameInput) : Bool :=
  ip.isPlaying && ip.analyserPresent && !s.gameOver

/-- The value the local `bass` variable holds after block 1. -/
def effBass (s : GameState) (ip : FrameInput) : ℚ :=
  if frameGate s ip then ip.bass else 0

/-- The value the local `treble` variable holds after block 1. -/
def effTreble (s : GameState) (ip : FrameInput) : ℚ :=
  if frameGate s ip then ip.treble else 0

/-- The value the local `volume` variable holds after block 1. -/
def effVolume (s : GameState) (ip : FrameInput) : ℚ :=
  if frameGate s ip then ip.volume else 0

/-! ### Physics (`Visualizer.tsx` lines 184-193): gravity, integration, ground
clamp. -/

def physicsStep (s : GameState) : GameState :=
  if s.playerY + (s.playerVelY + GRAVITY) ≥ s.groundY then
    { s with playerY := s.groundY, playerVelY := 0, isJumping := false }
  else
    { s with
        playerY := s.playerY + (s.playerVelY + GRAVITY)
        playerVelY := s.playerVelY + GRAVITY }

/-! ### Cooldowns (`Visualizer.tsx` lines 196-197): `if (c > 0) c--`. -/

def decCD (c : ℕ) : ℕ := if 0 < c then c - 1 else c

def decCooldowns (s : GameState) : GameState :=
  { s with
      bassCooldown := decCD s.bassCooldown
      trebleCooldown := decCD s.trebleCooldown }

/-! ### Spawning (`Visualizer.tsx` lines 201-228). -/

def obstacleColor : String := "#ff4081"

def coinColor : String := "#ffff00"

/-- Obstacle spawn on a bass beat (lines 201-212). -/
def spawnObstacle (s : GameState) (bass : ℚ) : GameState :=
  if 155 < bass ∧ s.bassCooldown = 0 then
    { s with
        entities := s.entities ++
          [{ id := s.nextId, x := SPAWN_X, y := s.groundY - 30, w := 24, h := 30,
             type := EntityType.obstacle, color := obstacleColor, collected := false }]
        nextId := s.nextId + 1
        bassCooldown := 25 }
  else s

/-- Coin spawn on a treble beat (lines 215-228); `coinHigh` decides the lane. -/
def spawnCoin (s : GameState) (treble : ℚ) (coinHigh : Bool) : GameState :=
  if 100 < treble ∧ s.trebleCooldown = 0 then
    { s with
        entities := s.entities ++
          [{ id := s.nextId, x := SPAWN_X,
             y := s.groundY - (if coinHigh then (80 : ℚ) else 140), w := 20, h := 20,
             type := EntityType.coin, color := coinColor, collected := false }]
        nextId := s.nextId + 1
        trebleCooldown := 15 }
  else s

/-! ### Entity pass (`Visualizer.tsx` lines 231-262).  The source iterates the
array from the last index down to 0; for each entity it advances `x`, runs
the AABB test against the player, then splices the entity out when it is
off-screen or collected.  The recursion below processes the tail (the higher
indices) first, exactly mirroring that order; `List ℕ` collects the
`onScoreUpdate` calls in emission order. -/

/-- Horizontal advance: `ent.x -= state.scrollSpeed` (line 233). -/
def advanceEntity (scroll : ℚ) (e : Entity) : Entity := { e with x := e.x - scroll }

/-- AABB overlap of the player hitbox with entity `e` (lines 236-246);
`py` is `state.playerY`. -/
def playerOverlap (py : ℚ) (e : Entity) : Bool :=
  decide (CANVAS_WIDTH / 4 - 30 / 2 < e.x + e.w) &&
  decide (CANVAS_WIDTH / 4 - 30 / 2 + 30 > e.x) &&
  decide (py - 40 < e.y + e.h) &&
  decide (py - 40 + 40 > e.y)

/-- The collision guard taken on the coin branch: `!ent.collected && overlap`
and `ent.type === 'coin'`. -/
def coinHitB (py : ℚ) (e : Entity) : Bool :=
  !e.collected && playerOverlap py e && decide (e.type = EntityType.coin)

/-- The collision guard taken on the obstacle branch. -/
def obsHitB (py : ℚ) (e : Entity) : Bool :=
  !e.collected && playerOverlap py e && decide (e.type = EntityType.obstacle)

/-- Collision resolution on one (already advanced) entity: a hit coin gets
`collected := true` (line 249); everything else is unchanged. -/
def entMark (py : ℚ) (e : Entity) : Entity :=
  if coinHitB py e then { e with collected := true } else e

/-- The splice guard of lines 259-261, negated: `true` iff the entity stays. -/
def entKeep (e : Entity) : Bool := !(decide (e.x < -50) || e.collected)

/-- One loop body (lines 232-261) on a single entity: returns the surviving
entity (if not spliced out), the updated score, the updated game-over flag,
and the score notifications it emitted. -/
def stepEntity (scroll py : ℚ) (e : Entity) (score : ℕ) (go : Bool) :
    Option Entity × ℕ × Bool × List ℕ :=
  let e1 := advanceEntity scroll e
  (if entKeep (entMark py e1) then some (entMark py e1) else none,
   if coinHitB py e1 then score + 50 else score,
   if obsHitB py e1 then true else go,
   if coinHitB py e1 then [score + 50] else [])

/-- The reverse-index loop over the whole entity array: the last entity is
processed first, as in the source's `for (let i = length - 1; i >= 0; i--)`. -/
def entityLoop (scroll py : ℚ) : List Entity → ℕ → Bool → List Entity × ℕ × Bool × List ℕ
  | [], score, go => ([], score, go, [])
  | e :: rest, score, go =>
      let r := entityLoop scroll py rest score go
      let q := stepEntity scroll py e r.2.1 r.2.2.1
      (Option.elim q.1 r.1 (fun e2 => e2 :: r.1), q.2.1, q.2.2.1, r.2.2.2 ++ q.2.2.2)

/-- State-level wrapper of the entity pass. -/
def entityPhase (s : GameState) : GameState × List ℕ :=
  let r := entityLoop s.scrollSpeed s.playerY s.entities s.score s.gameOver
  ({ s with entities := r.1, score := r.2.1, gameOver := r.2.2.1 }, r.2.2.2)

/-- Passive score (`Visualizer.tsx` lines 265-268): every 10th frame. -/
def passiveScore (s : GameState) (notes : List ℕ) : GameState × List ℕ :=
  if s.gameTime % 10 = 0 then ({ s with score := s.score + 1 }, notes ++ [s.score + 1])
  else (s, notes)

/-- The active part of a frame (`Visualizer.tsx` lines 181-269, body of
`if (isPlaying && !state.gameOver)`): frame counter, physics, cooldowns,
spawns, entity pass, passive score. -/
def activeStep (s : GameState) (bass treble : ℚ) (coinHigh : Bool) : GameState × List ℕ :=
  let s5 := spawnCoin
    (spawnObstacle (decCooldowns (physicsStep { s with gameTime := s.gameTime + 1 })) bass)
    treble coinHigh
  let r := entityPhase s5
  passiveScore r.1 r.2

/-- One whole `update` frame (`Visualizer.tsx` lines 148-269, rendering
excluded): block 1 computes the features and modulates the scroll speed,
block 2 runs the simulation when playing and not game over. -/
def update (s : GameState) (ip : FrameInput) : GameState × List ℕ :=
  let s1 := if frameGate s ip then { s with scrollSpeed := 3 + effVolume s ip * 4 } else s
  if ip.isPlaying && !s1.gameOver then
    activeStep s1 (effBass s ip) (effTreble s ip) ip.coinHigh
  else (s1, [])

/-! ### Frame traces. -/

/-- Iterate `update` over a list of frame inputs, keeping the state only. -/
def applyFrames (s : GameState) (l : List FrameInput) : GameState :=
  l.foldl (fun t ip => (update t ip).1) s

/-- Iterate `update`, collecting all score notifications in order. -/
def runFrames (s : GameState) : List FrameInput → GameState × List ℕ
  | [] => (s, [])
  | ip :: l =>
      let r := update s ip
      let r2 := runFrames r.1 l
      (r2.1, r.2 ++ r2.2)

/-- Whether the frame `update s ip` pushes an obstacle: the guard of
lines 201-212, with the cooldown read after the decrement of line 196. -/
def frameSpawnsObstacle (s : GameState) (ip : FrameInput) : Bool :=
  (ip.isPlaying && !s.gameOver) && decide (155 < effBass s ip) && decide (decCD s.bassCooldown = 0)

/-- Whether the frame `update s ip` pushes a coin: the guard of
lines 215-228. -/
def frameSpawnsCoin (s : GameState) (ip : FrameInput) : Bool :=
  (ip.isPlaying && !s.gameOver) && decide (100 < effTreble s ip) && decide (decCD s.trebleCooldown = 0)

/-- Everything that can touch the game state between renders: an animation
frame, a jump input event, or the play/pause effect firing on a transport
change. -/
inductive GameEvent where
  | frame (ip : FrameInput) : GameEvent
  | jump (isPlaying : Bool) : GameEvent
  | playCommand : GameEvent
  | pauseCommand : GameEvent

def isFrameEv : GameEvent → Bool
  | GameEvent.frame _ => true
  | _ => false

def applyEvent (s : GameState) (ev : GameEvent) : GameState :=
  match ev with
  | GameEvent.frame ip => (update s ip).1
  | GameEvent.jump b => jumpIntent s b
  | GameEvent.playCommand => (resetEffect s true).1
  | GameEvent.pauseCommand => (resetEffect s false).1

def applyEvents (s : GameState) (l : List GameEvent) : GameState := l.foldl applyEvent s

/-- The spec's three-phase description of the entity pass, stated for the
refinement claim: first advance every entity, then evaluate collision over
the full pre-prune advanced list (coins get marked and scored, any obstacle
overlap raises the game-over flag), then remove every entity with
`x < -50` or `collected == true`. -/
def entityPassSpec (scroll py : ℚ) (ents : List Entity) (score : ℕ) (go : Bool) :
    List Entity × ℕ × Bool :=
  (((ents.map (advanceEntity scroll)).map (entMark py)).filter entKeep,
   score + 50 * (ents.map (advanceEntity scroll)).countP (coinHitB py),
   go || (ents.map (advanceEntity scroll)).any (obsHitB py))

/-! ## Helper lemmas: field bookkeeping through the frame phases -/

@[simp] lemma advanceEntity_id (scroll : ℚ) (e : Entity) :
    (advanceEntity scroll e).id = e.id := rfl

@[simp] lemma advanceEntity_x (scroll : ℚ) (e : Entity) :
    (advanceEntity scroll e).x = e.x - scroll := rfl

@[simp] lemma advanceEntity_y (scroll : ℚ) (e : Entity) :
    (advanceEntity scroll e).y = e.y := rfl

@[simp] lemma advanceEntity_type (scroll : ℚ) (e : Entity) :
    (advanceEntity scroll e).type = e.type := rfl

@[simp] lemma advanceEntity_collected (scroll : ℚ) (e : Entity) :
    (advanceEntity scroll e).collected = e.collected := rfl

lemma decCD_eq (c : ℕ) : decCD c = c - 1 := by
  unfold decCD; split <;> omega

@[simp] lemma physicsStep_groundY (s : GameState) : (physicsStep s).groundY = s.groundY := by
  unfold physicsStep; split <;> rfl

@[simp] lemma physicsStep_scrollSpeed (s : GameState) :
    (physicsStep s).scrollSpeed = s.scrollSpeed := by
  unfold physicsStep; split <;> rfl

@[simp] lemma physicsStep_entities (s : GameState) : (physicsStep s).entities = s.entities := by
  unfold physicsStep; split <;> rfl

@[simp] lemma physicsStep_nextId (s : GameState) : (physicsStep s).nextId = s.nextId := by
  unfold physicsStep; split <;> rfl

@[simp] lemma physicsStep_bassCooldown (s : GameState) :
    (physicsStep s).bassCooldown = s.bassCooldown := by
  unfold physicsStep; split <;> rfl

@[simp] lemma physicsStep_trebleCooldown (s : GameState) :
    (physicsStep s).trebleCooldown = s.trebleCooldown := by
  unfold physicsStep; split <;> rfl

@[simp] lemma physicsStep_score (s : GameState) : (physicsStep s).score = s.score := by
  unfold physicsStep; split <;> rfl

@[simp] lemma physicsStep_gameOver (s : GameState) : (physicsStep s).gameOver = s.gameOver := by
  unfold physicsStep; split <;> rfl

@[simp] lemma physicsStep_gameTime (s : GameState) : (physicsStep s).gameTime = s.gameTime := by
  unfold physicsStep; split <;> rfl

lemma physicsStep_playerY (s : GameState) :
    (physicsStep s).playerY =
      if s.playerY + (s.playerVelY + GRAVITY) ≥ s.groundY then s.groundY
      else s.playerY + (s.playerVelY + GRAVITY) := by
  unfold physicsStep; split <;> simp_all

lemma physicsStep_playerVelY (s : GameState) :
    (physicsStep s).playerVelY =
      if s.playerY + (s.playerVelY + GRAVITY) ≥ s.groundY then 0
      else s.playerVelY + GRAVITY := by
  unfold physicsStep; split <;> simp_all

lemma physicsStep_isJumping (s : GameState) :
    (physicsStep s).isJumping =
      if s.playerY + (s.playerVelY + GRAVITY) ≥ s.groundY then false else s.isJumping := by
  unfold physicsStep; split <;> simp_all

@[simp] lemma decCooldowns_playerY (s : GameState) : (decCooldowns s).playerY = s.playerY := rfl

@[simp] lemma decCooldowns_playerVelY (s : GameState) :
    (decCooldowns s).playerVelY = s.playerVelY := rfl

@[simp] lemma decCooldowns_isJumping (s : GameState) :
    (decCooldowns s).isJumping = s.isJumping := rfl

@[simp] lemma decCooldowns_groundY (s : GameState) : (decCooldowns s).groundY = s.groundY := rfl

@[simp] lemma decCooldowns_scrollSpeed (s : GameState) :
    (decCooldowns s).scrollSpeed = s.scrollSpeed := rfl

@[simp] lemma decCooldowns_entities (s : GameState) : (decCooldowns s).entities = s.entities := rfl

@[simp] lemma decCooldowns_nextId (s : GameState) : (decCooldowns s).nextId = s.nextId := rfl

@[simp] lemma decCooldowns_bassCooldown (s : GameState) :
    (decCooldowns s).bassCooldown = decCD s.bassCooldown := rfl

@[simp] lemma decCooldowns_trebleCooldown (s : GameState) :
    (decCooldowns s).trebleCooldown = decCD s.trebleCooldown := rfl

@[simp] lemma decCooldowns_score (s : GameState) : (decCooldowns s).score = s.score := rfl

@[simp] lemma decCooldowns_gameOver (s : GameState) : (decCooldowns s).gameOver = s.gameOver := rfl

@[simp] lemma decCooldowns_gameTime (s : GameState) : (decCooldowns s).gameTime = s.gameTime := rfl

@[simp] lemma spawnObstacle_playerY (s : GameState) (b : ℚ) :
    (spawnObstacle s b).playerY = s.playerY := by
  unfold spawnObstacle; split <;> rfl

@[simp] lemma spawnObstacle_playerVelY (s : GameState) (b : ℚ) :
    (spawnObstacle s b).playerVelY = s.playerVelY := by
  unfold spawnObstacle; split <;> rfl

@[simp] lemma spawnObstacle_isJumping (s : GameState) (b : ℚ) :
    (spawnObstacle s b).isJumping = s.isJumping := by
  unfold spawnObstacle; split <;> rfl

@[simp] lemma spawnObstacle_groundY (s : GameState) (b : ℚ) :
    (spawnObstacle s b).groundY = s.groundY := by
  unfold spawnObstacle; split <;> rfl

@[simp] lemma spawnObstacle_scrollSpeed (s : GameState) (b : ℚ) :
    (spawnObstacle s b).scrollSpeed = s.scrollSpeed := by
  unfold spawnObstacle; split <;> rfl

@[simp] lemma spawnObstacle_trebleCooldown (s : GameState) (b : ℚ) :
    (spawnObstacle s b).trebleCooldown = s.trebleCooldown := by
  unfold spawnObstacle; split <;> rfl

@[simp] lemma spawnObstacle_score (s : GameState) (b : ℚ) :
    (spawnObstacle s b).score = s.score := by
  unfold spawnObstacle; split <;> rfl

@[simp] lemma spawnObstacle_gameOver (s : GameState) (b : ℚ) :
    (spawnObstacle s b).gameOver = s.gameOver := by
  unfold spawnObstacle; split <;> rfl

@[simp] lemma spawnObstacle_gameTime (s : GameState) (b : ℚ) :
    (spawnObstacle s b).gameTime = s.gameTime := by
  unfold spawnObstacle; split <;> rfl

lemma spawnObstacle_bassCooldown (s : GameState) (b : ℚ) :
    (spawnObstacle s b).bassCooldown =
      if 155 < b ∧ s.bassCooldown = 0 then 25 else s.bassCooldown := by
  unfold spawnObstacle; split <;> simp_all

lemma spawnObstacle_nextId (s : GameState) (b : ℚ) :
    (spawnObstacle s b).nextId =
      if 155 < b ∧ s.bassCooldown = 0 then s.nextId + 1 else s.nextId := by
  unfold spawnObstacle; split <;> simp_all

@[simp] lemma spawnCoin_playerY (s : GameState) (t : ℚ) (ch : Bool) :
    (spawnCoin s t ch).playerY = s.playerY := by
  unfold spawnCoin; split <;> rfl

@[simp] lemma spawnCoin_playerVelY (s : GameState) (t : ℚ) (ch : Bool) :
    (spawnCoin s t ch).playerVelY = s.playerVelY := by
  unfold spawnCoin; split <;> rfl

@[simp] lemma spawnCoin_isJumping (s : GameState) (t : ℚ) (ch : Bool) :
    (spawnCoin s t ch).isJumping = s.isJumping := by
  unfold spawnCoin; split <;> rfl

@[simp] lemma spawnCoin_groundY (s : GameState) (t : ℚ) (ch : Bool) :
    (spawnCoin s t ch).groundY = s.groundY := by
  unfold spawnCoin; split <;> rfl

@[simp] lemma spawnCoin_scrollSpeed (s : GameState) (t : ℚ) (ch : Bool) :
    (spawnCoin s t ch).scrollSpeed = s.scrollSpeed := by
  unfold spawnCoin; split <;> rfl

@[simp] lemma spawnCoin_bassCooldown (s : GameState) (t : ℚ) (ch : Bool) :
    (spawnCoin s t ch).bassCooldown = s.bassCooldown := by
  unfold spawnCoin; split <;> rfl

@[simp] lemma spawnCoin_score (s : GameState) (t : ℚ) (ch : Bool) :
    (spawnCoin s t ch).score = s.score := by
  unfold spawnCoin; split <;> rfl

@[simp] lemma spawnCoin_gameOver (s : GameState) (t : ℚ) (ch : Bool) :
    (spawnCoin s t ch).gameOver = s.gameOver := by
  unfold spawnCoin; split <;> rfl

@[simp] lemma spawnCoin_gameTime (s : GameState) (t : ℚ) (ch : Bool) :
    (spawnCoin s t ch).gameTime = s.gameTime := by
  unfold spawnCoin; split <;> rfl

lemma spawnCoin_trebleCooldown (s : GameState) (t : ℚ) (ch : Bool) :
    (spawnCoin s t ch).trebleCooldown =
      if 100 < t ∧ s.trebleCooldown = 0 then 15 else s.trebleCooldown := by
  unfold spawnCoin; split <;> simp_all

lemma spawnCoin_nextId (s : GameState) (t : ℚ) (ch : Bool) :
    (spawnCoin s t ch).nextId =
      if 100 < t ∧ s.trebleCooldown = 0 then s.nextId + 1 else s.nextId := by
  unfold spawnCoin; split <;> simp_all

@[simp] lemma entityPhase_playerY (s : GameState) : (entityPhase s).1.playerY = s.playerY := rfl

@[simp] lemma entityPhase_playerVelY (s : GameState) :
    (entityPhase s).1.playerVelY = s.playerVelY := rfl

@[simp] lemma entityPhase_isJumping (s : GameState) :
    (entityPhase s).1.isJumping = s.isJumping := rfl

@[simp] lemma entityPhase_groundY (s : GameState) : (entityPhase s).1.groundY = s.groundY := rfl

@[simp] lemma entityPhase_scrollSpeed (s : GameState) :
    (entityPhase s).1.scrollSpeed = s.scrollSpeed := rfl

@[simp] lemma entityPhase_nextId (s : GameState) : (entityPhase s).1.nextId = s.nextId := rfl

@[simp] lemma entityPhase_bassCooldown (s : GameState) :
    (entityPhase s).1.bassCooldown = s.bassCooldown := rfl

@[simp] lemma entityPhase_trebleCooldown (s : GameState) :
    (entityPhase s).1.trebleCooldown = s.trebleCooldown := rfl

@[simp] lemma entityPhase_gameTime (s : GameState) : (entityPhase s).1.gameTime = s.gameTime := rfl

@[simp] lemma passiveScore_playerY (s : GameState) (n : List ℕ) :
    (passiveScore s n).1.playerY = s.playerY := by
  unfold passiveScore; split <;> rfl

@[simp] lemma passiveScore_playerVelY (s : GameState) (n : List ℕ) :
    (passiveScore s n).1.playerVelY = s.playerVelY := by
  unfold passiveScore; split <;> rfl

@[simp] lemma passiveScore_isJumping (s : GameState) (n : List ℕ) :
    (passiveScore s n).1.isJumping = s.isJumping := by
  unfold passiveScore; split <;> rfl

@[simp] lemma passiveScore_groundY (s : GameState) (n : List ℕ) :
    (passiveScore s n).1.groundY = s.groundY := by
  unfold passiveScore; split <;> rfl

@[simp] lemma passiveScore_scrollSpeed (s : GameState) (n : List ℕ) :
    (passiveScore s n).1.scrollSpeed = s.scrollSpeed := by
  unfold passiveScore; split <;> rfl

@[simp] lemma passiveScore_entities (s : GameState) (n : List ℕ) :
    (passiveScore s n).1.entities = s.entities := by
  unfold passiveScore; split <;> rfl

@[simp] lemma passiveScore_nextId (s : GameState) (n : List ℕ) :
    (passiveScore s n).1.nextId = s.nextId := by
  unfold passiveScore; split <;> rfl

@[simp] lemma passiveScore_bassCooldown (s : GameState) (n : List ℕ) :
    (passiveScore s n).1.bassCooldown = s.bassCooldown := by
  unfold passiveScore; split <;> rfl

@[simp] lemma passiveScore_trebleCooldown (s : GameState) (n : List ℕ) :
    (passiveScore s n).1.trebleCooldown = s.trebleCooldown := by
  unfold passiveScore; split <;> rfl

@[simp] lemma passiveScore_gameOver (s : GameState) (n : List ℕ) :
    (passiveScore s n).1.gameOver = s.gameOver := by
  unfold passiveScore; split <;> rfl

@[simp] lemma passiveScore_gameTime (s : GameState) (n : List ℕ) :
    (passiveScore s n).1.gameTime = s.gameTime := by
  unfold passiveScore; split <;> rfl

lemma activeStep_playerY (s : GameState) (b t : ℚ) (ch : Bool) :
    (activeStep s b t ch).1.playerY = (physicsStep s).playerY := by
  unfold activeStep
  simp [physicsStep_playerY]

lemma activeStep_playerVelY (s : GameState) (b t : ℚ) (ch : Bool) :
    (activeStep s b t ch).1.playerVelY = (physicsStep s).playerVelY := by
  unfold activeStep
  simp [physicsStep_playerVelY]

lemma activeStep_isJumping (s : GameState) (b t : ℚ) (ch : Bool) :
    (activeStep s b t ch).1.isJumping = (physicsStep s).isJumping := by
  unfold activeStep
  simp [physicsStep_isJumping]

lemma activeStep_groundY (s : GameState) (b t : ℚ) (ch : Bool) :
    (activeStep s b t ch).1.groundY = s.groundY := by
  unfold activeStep
  simp

lemma activeStep_scrollSpeed (s : GameState) (b t : ℚ) (ch : Bool) :
    (activeStep s b t ch).1.scrollSpeed = s.scrollSpeed := by
  unfold activeStep
  simp

lemma activeStep_gameTime (s : GameState) (b t : ℚ) (ch : Bool) :
    (activeStep s b t ch).1.gameTime = s.gameTime + 1 := by
  unfold activeStep
  simp

lemma activeStep_bassCooldown (s : GameState) (b t : ℚ) (ch : Bool) :
    (activeStep s b t ch).1.bassCooldown =
      if 155 < b ∧ decCD s.bassCooldown = 0 then 25 else decCD s.bassCooldown := by
  unfold activeStep
  simp [spawnObstacle_bassCooldown]

lemma activeStep_trebleCooldown (s : GameState) (b t : ℚ) (ch : Bool) :
    (activeStep s b t ch).1.trebleCooldown =
      if 100 < t ∧ decCD s.trebleCooldown = 0 then 15 else decCD s.trebleCooldown := by
  unfold activeStep
  simp [spawnCoin_trebleCooldown, spawnObstacle_trebleCooldown]

lemma activeStep_nextId_of_no_beat (s : GameState) (b t : ℚ) (ch : Bool)
    (hb : ¬ 155 < b) (ht : ¬ 100 < t) :
    (activeStep s b t ch).1.nextId = s.nextId := by
  unfold activeStep
  simp [spawnCoin_nextId, spawnObstacle_nextId, spawnObstacle_bassCooldown, hb, ht]

lemma update_eq (s : GameState) (ip : FrameInput) :
    update s ip =
      if ip.isPlaying && !s.gameOver then
        activeStep
          (if frameGate s ip then { s with scrollSpeed := 3 + effVolume s ip * 4 } else s)
          (effBass s ip) (effTreble s ip) ip.coinHigh
      else
        (if frameGate s ip then { s with scrollSpeed := 3 + effVolume s ip * 4 } else s, []) := by
  unfold update
  by_cases h : frameGate s ip <;> simp [h]

/-! ## C7: ground clamp invariant -/

lemma update_player_fields (s : GameState) (ip : FrameInput)
    (hp : ip.isPlaying = true) (hg : s.gameOver = false) :
    (update s ip).1.playerY = (physicsStep s).playerY ∧
    (update s ip).1.playerVelY = (physicsStep s).playerVelY ∧
    (update s ip).1.isJumping = (physicsStep s).isJumping := by
  have hcond : (ip.isPlaying && !s.gameOver) = true := by rw [hp, hg]; rfl
  rw [update_eq]
  simp only [hcond, if_true]
  by_cases hgate : frameGate s ip <;>
    simp [hgate, activeStep_playerY, activeStep_playerVelY, activeStep_isJumping,
      physicsStep_playerY, physicsStep_playerVelY, physicsStep_isJumping]

/-- C7: for every active frame (playing and not game over), after the physics
step `playerY ≤ groundY` holds; and whenever the gravity-integrated position
reaches `groundY`, the frame clamps `playerY` to `groundY`, zeroes
`playerVelY`, and clears `isJumping`. -/
theorem C7_ground_clamp (s : GameState) (ip : FrameInput)
    (hp : ip.isPlaying = true) (hg : s.gameOver = false) :
    (update s ip).1.playerY ≤ s.groundY ∧
      (s.groundY ≤ s.playerY + (s.playerVelY + GRAVITY) →
        (update s ip).1.playerY = s.groundY ∧
          (update s ip).1.playerVelY = 0 ∧
          (update s ip).1.isJumping = false) := by
  obtain ⟨h1, h2, h3⟩ := update_player_fields s ip hp hg
  rw [h1, h2, h3, physicsStep_playerY, physicsStep_playerVelY, physicsStep_isJumping]
  by_cases hc : s.playerY + (s.playerVelY + GRAVITY) ≥ s.groundY
  · simp [hc]
  · refine ⟨?_, fun h => absurd h hc⟩
    rw [if_neg hc]
    exact le_of_lt (lt_of_not_ge hc)

/-- C7 witness: a concrete active frame from a mid-air state that lands this
frame. -/
theorem C7_ground_clamp_witness :
    (⟨true, true, 0, 0, 0, false⟩ : FrameInput).isPlaying = true ∧
    ({ initState with playerY := 229, playerVelY := 2, isJumping := true } :
        GameState).gameOver = false ∧
    (update { initState with playerY := 229, playerVelY := 2, isJumping := true }
        ⟨true, true, 0, 0, 0, false⟩).1.playerY ≤
      ({ initState with playerY := 229, playerVelY := 2, isJumping := true } :
        GameState).groundY :=
  ⟨rfl, rfl,
    (C7_ground_clamp { initState with playerY := 229, playerVelY := 2, isJumping := true }
        ⟨true, true, 0, 0, 0, false⟩ rfl rfl).1⟩

/-! ## C8: jump intent -/

/-- C8: a jump intent during play while not jumping sets `playerVelY = -10`
and `isJumping = true`; a jump intent while already jumping leaves the state
unchanged (the commented-out forgiveness branch performs no mutation), so a
second intent delivered before landing is a no-op. -/
theorem C8_jump_no_double (s : GameState) :
    (s.gameOver = false → s.isJumping = false →
      jumpIntent s true = { s with playerVelY := -10, isJumping := true }) ∧
    (s.isJumping = true → ∀ b : Bool, jumpIntent s b = s) ∧
    (∀ b : Bool, jumpIntent (jumpIntent s b) b = jumpIntent s b) := by
  refine ⟨fun hg hj => ?_, fun hj b => ?_, fun b => ?_⟩
  · unfold jumpIntent
    simp [hg, hj, JUMP_FORCE]
  · unfold jumpIntent
    cases b <;> by_cases hg : s.gameOver <;> simp [hg, hj]
  · unfold jumpIntent
    cases b <;> by_cases hg : s.gameOver <;> by_cases hj : s.isJumping <;> simp [hg, hj]

/-- C8 witness: the jump fields at the initial (grounded) state. -/
theorem C8_jump_no_double_witness :
    initState.gameOver = false ∧ initState.isJumping = false ∧
    jumpIntent initState true = { initState with playerVelY := -10, isJumping := true } :=
  ⟨rfl, rfl, (C8_jump_no_double initState).1 rfl rfl⟩

/-! ## C9: obstacle spawn on a bass beat -/

/-- C9: whenever the bass feature exceeds 155 and the bass cooldown is 0, the
spawn phase appends exactly one obstacle entity — at `x = SPAWN_X = 530`,
`y = groundY - 30`, size 24×30, with the fresh id `nextId` — increments
`nextId`, and resets the bass cooldown to 25; the new id differs from every
id already in the field whenever ids are below `nextId`. -/
theorem C9_bass_spawn (s : GameState) (bass : ℚ)
    (hb : 155 < bass) (hc : s.bassCooldown = 0) :
    SPAWN_X = 530 ∧
    spawnObstacle s bass =
      { s with
          entities := s.entities ++
            [{ id := s.nextId, x := SPAWN_X, y := s.groundY - 30, w := 24, h := 30,
               type := EntityType.obstacle, color := obstacleColor, collected := false }]
          nextId := s.nextId + 1
          bassCooldown := 25 } ∧
    ((∀ e ∈ s.entities, e.id < s.nextId) → ∀ e ∈ s.entities, e.id ≠ s.nextId) := by
  refine ⟨by norm_num [SPAWN_X, CANVAS_WIDTH], ?_, fun h e he => Nat.ne_of_lt (h e he)⟩
  unfold spawnObstacle
  rw [if_pos ⟨hb, hc⟩]

/-! ## C4: game over freezes the simulation -/

lemma update_of_gameOver (s : GameState) (ip : FrameInput) (hg : s.gameOver = true) :
    update s ip = (s, []) := by
  rw [update_eq]
  simp [hg, frameGate]

/-- C4: once `gameOver` is set, every later frame (any number of them, with
any inputs) leaves the whole state unchanged and emits no score
notification: no physics, spawning, collision, passive scoring, or pruning
occurs until an explicit reset. -/
theorem C4_game_over_frozen (s : GameState) (hg : s.gameOver = true) :
    ∀ l : List FrameInput, runFrames s l = (s, []) := by
  intro l
  induction l with
  | nil => rfl
  | cons ip l ih =>
      unfold runFrames
      rw [update_of_gameOver s ip hg]
      simp [ih]

/-- A dead state used as the concrete C4 witness. -/
def frozenEx : GameState :=
  { initState with
      gameOver := true
      score := 7
      playerY := 210
      entities := [{ id := 4, x := 120, y := 200, w := 24, h := 30,
                     type := EntityType.obstacle, color := obstacleColor, collected := false }] }

/-- C4 witness: two further frames on a dead state change nothing. -/
theorem C4_game_over_frozen_witness :
    frozenEx.gameOver = true ∧
    runFrames frozenEx
      [⟨true, true, 200, 120, 1/2, true⟩, ⟨true, true, 200, 120, 1/2, false⟩] =
      (frozenEx, []) :=
  ⟨rfl, C4_game_over_frozen frozenEx rfl _⟩

/-! ## C10: the frame is not atomic at game over -/

/-- C10: the entity pass keeps processing after an obstacle overlap has set
`gameOver`.  With an overlapping coin at index 0 and an overlapping obstacle
at index 1, the reverse-order loop first handles the obstacle (setting
`gameOver`, first conjunct), then still advances, collision-tests and prunes
the coin: the score rises by 50 and the notification `score + 50` is emitted
after `gameOver` has become true (second conjunct). -/
theorem C10_game_over_not_atomic (scroll py : ℚ) (score : ℕ) (c o : Entity)
    (hct : c.type = EntityType.coin) (hcc : c.collected = false)
    (hcov : playerOverlap py (advanceEntity scroll c) = true)
    (hot : o.type = EntityType.obstacle) (hoc : o.collected = false)
    (hoov : playerOverlap py (advanceEntity scroll o) = true)
    (hox : ¬ (advanceEntity scroll o).x < -50) :
    entityLoop scroll py [o] score false = ([advanceEntity scroll o], score, true, []) ∧
    entityLoop scroll py [c, o] score false =
      ([advanceEntity scroll o], score + 50, true, [score + 50]) := by
  have hcoin : coinHitB py (advanceEntity scroll c) = true := by
    simp [coinHitB, hcc, hcov, hct]
  have hcobs : obsHitB py (advanceEntity scroll c) = false := by
    simp [obsHitB, hct]
  have hocoin : coinHitB py (advanceEntity scroll o) = false := by
    simp [coinHitB, hot]
  have hoobs : obsHitB py (advanceEntity scroll o) = true := by
    simp [obsHitB, hoc, hoov, hot]
  have hmo : entMark py (advanceEntity scroll o) = advanceEntity scroll o := by
    simp [entMark, hocoin]
  have hkeepo : entKeep (advanceEntity scroll o) = true := by
    simp at hox
    simp [entKeep, hoc]
    linarith
  have hdropc : entKeep (entMark py (advanceEntity scroll c)) = false := by
    simp [entMark, entKeep, hcoin]
  constructor
  · simp [entityLoop, stepEntity, hocoin, hoobs, hmo, hkeepo]
  · simp [entityLoop, stepEntity, hcoin, hcobs, hocoin, hoobs, hmo, hkeepo, hdropc]

/-- C10 witness: concrete coin and obstacle both overlapping the grounded
player in the same frame. -/
theorem C10_game_over_not_atomic_witness :
    entityLoop 4 230
      [{ id := 1, x := 114, y := 200, w := 20, h := 20, type := EntityType.coin,
         color := coinColor, collected := false },
       { id := 2, x := 114, y := 200, w := 24, h := 30, type := EntityType.obstacle,
         color := obstacleColor, collected := false }] 0 false =
      ([advanceEntity 4
          { id := 2, x := 114, y := 200, w := 24, h := 30, type := EntityType.obstacle,
            color := obstacleColor, collected := false }], 0 + 50, true, [0 + 50]) :=
  (C10_game_over_not_atomic 4 230 0
      { id := 1, x := 114, y := 200, w := 20, h := 20, type := EntityType.coin,
        color := coinColor, collected := false }
      { id := 2, x := 114, y := 200, w := 24, h := 30, type := EntityType.obstacle,
        color := obstacleColor, collected := false }
      rfl rfl (by decide) rfl rfl (by decide) (by decide)).2

/-! ## C6: the single reverse loop refines the three-phase description -/

lemma stepEntity_fst (scroll py : ℚ) (e : Entity) (sc : ℕ) (go : Bool) :
    (stepEntity scroll py e sc go).1 =
      if entKeep (entMark py (advanceEntity scroll e)) then
        some (entMark py (advanceEntity scroll e))
      else none := rfl

lemma entityLoop_fst (scroll py : ℚ) (ents : List Entity) (score : ℕ) (go : Bool) :
    (entityLoop scroll py ents score go).1 =
      ((ents.map (advanceEntity scroll)).map (entMark py)).filter entKeep := by
  induction ents generalizing score go with
  | nil => rfl
  | cons e rest ih =>
      have h1 : (entityLoop scroll py (e :: rest) score go).1 =
          Option.elim
            (stepEntity scroll py e (entityLoop scroll py rest score go).2.1
              (entityLoop scroll py rest score go).2.2.1).1
            (entityLoop scroll py rest score go).1
            (fun e2 => e2 :: (entityLoop scroll py rest score go).1) := rfl
      rw [h1, stepEntity_fst, ih]
      by_cases hk : entKeep (entMark py (advanceEntity scroll e)) = true <;>
        simp [hk, List.filter_cons]

lemma entityLoop_score (scroll py : ℚ) (ents : List Entity) (score : ℕ) (go : Bool) :
    (entityLoop scroll py ents score go).2.1 =
      score + 50 * (ents.map (advanceEntity scroll)).countP (coinHitB py) := by
  induction ents generalizing score go with
  | nil => simp [entityLoop]
  | cons e rest ih =>
      have h1 : (entityLoop scroll py (e :: rest) score go).2.1 =
          if coinHitB py (advanceEntity scroll e) then
            (entityLoop scroll py rest score go).2.1 + 50
          else (entityLoop scroll py rest score go).2.1 := rfl
      rw [h1, ih]
      by_cases hc : coinHitB py (advanceEntity scroll e) = true
      · simp [hc, List.countP_cons]
        omega
      · simp [hc, List.countP_cons]

lemma entityLoop_go (scroll py : ℚ) (ents : List Entity) (score : ℕ) (go : Bool) :
    (entityLoop scroll py ents score go).2.2.1 =
      (go || (ents.map (advanceEntity scroll)).any (obsHitB py)) := by
  induction ents generalizing score go with
  | nil => simp [entityLoop]
  | cons e rest ih =>
      have h1 : (entityLoop scroll py (e :: rest) score go).2.2.1 =
          if obsHitB py (advanceEntity scroll e) then true
          else (entityLoop scroll py rest score go).2.2.1 := rfl
      rw [h1, ih]
      by_cases hb : obsHitB py (advanceEntity scroll e) = true <;> simp [hb]

/-- C6: the implementation's single reverse-iteration loop (advance, collide
and splice each entity in turn) returns, for every starting entity list,
score and game-over flag, exactly the entities sequence, score and game-over
flag of the spec's three-phase order: advance all entities, then evaluate
collision over the full pre-prune list, then remove every entity with
`x < -50` or `collected == true`. -/
theorem C6_loop_refines_three_phase (scroll py : ℚ) (ents : List Entity) (score : ℕ)
    (go : Bool) :
    ((entityLoop scroll py ents score go).1,
     (entityLoop scroll py ents score go).2.1,
     (entityLoop scroll py ents score go).2.2.1) = entityPassSpec scroll py ents score go := by
  unfold entityPassSpec
  rw [entityLoop_fst, entityLoop_score, entityLoop_go]

/-! ## C2: frames without an attached analyser -/

/-- C2 counterexample: with `isPlaying = true` and no analyser, the physics
block still runs — `gameTime` advances from 0 to 1 on the very first frame,
contradicting the claim that the physics step does not advance (leaving
`gameTime` unchanged) when no spectrum source is attached. -/
theorem C2_no_analyser_cex :
    (update initState ⟨true, false, 0, 0, 0, false⟩).1.gameTime = 1 ∧
    initState.gameTime = 0 := by
  constructor
  · decide
  · rfl

/-- C2 amended: when no analyser is attached, bass, treble and volume are 0
and no entity is spawned that frame (`nextId` is unchanged), and the scroll
speed is not modulated; but the physics step still advances — on a playing,
non-game-over frame `gameTime` increments (and gravity, cooldown decrements
and passive scoring run as on any active frame). -/
theorem C2_no_analyser (s : GameState) (ip : FrameInput)
    (ha : ip.analyserPresent = false) :
    effBass s ip = 0 ∧ effTreble s ip = 0 ∧ effVolume s ip = 0 ∧
    (update s ip).1.nextId = s.nextId ∧
    (update s ip).1.scrollSpeed = s.scrollSpeed ∧
    (ip.isPlaying = true → s.gameOver = false →
      (update s ip).1.gameTime = s.gameTime + 1) := by
  have hgate : frameGate s ip = false := by simp [frameGate, ha]
  have heb : effBass s ip = 0 := by simp [effBass, hgate]
  have het : effTreble s ip = 0 := by simp [effTreble, hgate]
  have hev : effVolume s ip = 0 := by simp [effVolume, hgate]
  have hu : update s ip =
      if ip.isPlaying && !s.gameOver then
        activeStep s (effBass s ip) (effTreble s ip) ip.coinHigh
      else (s, []) := by
    rw [update_eq]
    simp [hgate]
  refine ⟨heb, het, hev, ?_, ?_, ?_⟩
  · rw [hu]
    by_cases hact : (ip.isPlaying && !s.gameOver) = true
    · rw [if_pos hact, heb, het]
      exact activeStep_nextId_of_no_beat s 0 0 ip.coinHigh (by norm_num) (by norm_num)
    · rw [if_neg hact]
  · rw [hu]
    by_cases hact : (ip.isPlaying && !s.gameOver) = true
    · rw [if_pos hact]
      exact activeStep_scrollSpeed s _ _ _
    · rw [if_neg hact]
  · intro hp hg
    have hact : (ip.isPlaying && !s.gameOver) = true := by rw [hp, hg]; rfl
    rw [hu, if_pos hact]
    exact activeStep_gameTime s _ _ _

/-- C2 amended witness: first frame from the initial state, playing, no
analyser. -/
theorem C2_no_analyser_witness :
    (⟨true, false, 0, 0, 0, false⟩ : FrameInput).analyserPresent = false ∧
    (update initState ⟨true, false, 0, 0, 0, false⟩).1.nextId = initState.nextId ∧
    (update initState ⟨true, false, 0, 0, 0, false⟩).1.gameTime = initState.gameTime + 1 :=
  ⟨rfl, (C2_no_analyser initState ⟨true, false, 0, 0, 0, false⟩ rfl).2.2.2.1,
    (C2_no_analyser initState ⟨true, false, 0, 0, 0, false⟩ rfl).2.2.2.2.2 rfl rfl⟩

/-! ## C1: the play-command reset is not a full reset -/

/-- A game-over state with non-initial values in the fields the reset effect
does not touch. -/
def resetEx : GameState :=
  { initState with
      gameOver := true
      gameTime := 42
      score := 310
      nextId := 3
      bassCooldown := 7
      trebleCooldown := 4
      scrollSpeed := 6 }

/-- C1 counterexample: a play command on a game-over state does reset the
listed core fields, but `nextId`, `bassCooldown` (and `scrollSpeed`,
`trebleCooldown`) keep their old values, so the result is not the initial
state — the reset is not full. -/
theorem C1_reset_not_full_cex :
    resetEx.gameOver = true ∧
    (resetEffect resetEx true).1.nextId = 3 ∧ initState.nextId = 0 ∧
    (resetEffect resetEx true).1.bassCooldown = 7 ∧ initState.bassCooldown = 0 ∧
    (resetEffect resetEx true).1.scrollSpeed = 6 ∧ initState.scrollSpeed = 4 ∧
    (resetEffect resetEx true).1 ≠ initState := by
  refine ⟨rfl, by decide, rfl, by decide, rfl, by decide, rfl, by decide⟩

/-- C1 amended: a play command with `gameOver == true` or `gameTime == 0`
resets `playerY`, `playerVelY`, `isJumping`, `entities`, `score`, `gameOver`
and `gameTime` to their initial values and fires the score notification with
0 — but leaves `scrollSpeed`, `distance`, `nextId`, `bassCooldown` and
`trebleCooldown` unchanged. -/
theorem C1_reset_incomplete (s : GameState) (h : s.gameOver = true ∨ s.gameTime = 0) :
    resetEffect s true =
      ({ s with
          playerY := CANVAS_HEIGHT - GROUND_HEIGHT
          playerVelY := 0
          isJumping := false
          entities := []
          score := 0
          gameOver := false
          gameTime := 0 }, [0]) ∧
    (resetEffect s true).1.scrollSpeed = s.scrollSpeed ∧
    (resetEffect s true).1.distance = s.distance ∧
    (resetEffect s true).1.nextId = s.nextId ∧
    (resetEffect s true).1.bassCooldown = s.bassCooldown ∧
    (resetEffect s true).1.trebleCooldown = s.trebleCooldown := by
  have hc : (s.gameOver || s.gameTime == 0) = true := by
    rcases h with h | h <;> simp [h]
  have hr : resetEffect s true =
      ({ s with
          playerY := CANVAS_HEIGHT - GROUND_HEIGHT
          playerVelY := 0
          isJumping := false
          entities := []
          score := 0
          gameOver := false
          gameTime := 0 }, [0]) := by
    unfold resetEffect
    simp [hc]
  exact ⟨hr, by rw [hr], by rw [hr], by rw [hr], by rw [hr], by rw [hr]⟩

/-- C1 amended witness: the reset applied at the concrete game-over state. -/
theorem C1_reset_incomplete_witness :
    (resetEx.gameOver = true ∨ resetEx.gameTime = 0) ∧
    (resetEffect resetEx true).1.nextId = resetEx.nextId ∧
    (resetEffect resetEx true).1.bassCooldown = resetEx.bassCooldown :=
  ⟨Or.inl rfl, (C1_reset_incomplete resetEx (Or.inl rfl)).2.2.2.1,
    (C1_reset_incomplete resetEx (Or.inl rfl)).2.2.2.2.1⟩

/-! ## C3: zero-length spectrum buffer -/

/-- C3 counterexample: with `N = 0` the sampler's three divisions are `0 / 0`
(NaN, modelled `none`) — none of bass, treble, volume is the number 0, so
the code does divide by zero rather than defining them as 0. -/
theorem C3_zero_buffer_cex :
    bassOf [] = none ∧ trebleOf [] = none ∧ volumeOf [] = none ∧
    bassOf [] ≠ some 0 := by
  refine ⟨by decide, by decide, by decide, by decide⟩

lemma jsDiv_isSome (a b : ℚ) (hb : b ≠ 0) : (jsDiv a b).isSome = true := by
  simp [jsDiv, hb]

/-- C3 amended: with `N = 0` (analyser present, `frequencyBinCount == 0`) the
sampler performs `0 / 0` divisions, so bass, treble and volume are all NaN
(`none`), not 0; all three are well-defined numbers whenever `N ≥ 7` (treble
and volume already for `N ≥ 1`; bass needs `floor(0.15 N) ≥ 1`). -/
theorem C3_zero_buffer (data : List ℕ) :
    (data.length = 0 → bassOf data = none ∧ trebleOf data = none ∧ volumeOf data = none) ∧
    (7 ≤ data.length →
      (bassOf data).isSome = true ∧ (trebleOf data).isSome = true ∧
        (volumeOf data).isSome = true) := by
  constructor
  · intro h
    rw [List.length_eq_zero] at h
    subst h
    exact ⟨by decide, by decide, by decide⟩
  · intro h7
    have hn1 : 1 ≤ data.length := by omega
    refine ⟨?_, ?_, ?_⟩
    · have hb : 1 ≤ bassEnd data.length := by
        unfold bassEnd
        rw [Nat.le_div_iff_mul_le (by norm_num : 0 < 100)]
        omega
      unfold bassOf
      exact jsDiv_isSome _ _ (by exact_mod_cast Nat.one_le_iff_ne_zero.mp hb)
    · have ht : trebleStart data.length < data.length := by
        unfold trebleStart
        rw [Nat.div_lt_iff_lt_mul (by norm_num : 0 < 10)]
        omega
      unfold trebleOf
      exact jsDiv_isSome _ _ (sub_ne_zero.mpr (ne_of_gt (by exact_mod_cast ht)))
    · have hne : ((data.length : ℕ) : ℚ) ≠ 0 := by
        exact_mod_cast Nat.one_le_iff_ne_zero.mp hn1
      simp [volumeOf, jsDiv, hne]

/-- C3 amended witness: the empty buffer is all-NaN; a 7-bin buffer of value
200 has all three features defined. -/
theorem C3_zero_buffer_witness :
    (([] : List ℕ).length = 0 ∧ bassOf [] = none) ∧
    (7 ≤ [200, 200, 200, 200, 200, 200, 200].length ∧
      (bassOf [200, 200, 200, 200, 200, 200, 200]).isSome = true) :=
  ⟨⟨rfl, ((C3_zero_buffer []).1 rfl).1⟩,
    ⟨by decide, ((C3_zero_buffer [200, 200, 200, 200, 200, 200, 200]).2 (by decide)).1⟩⟩

/-! ## C5: spawn cooldown gaps -/

lemma update_bassCooldown (s : GameState) (ip : FrameInput) :
    (update s ip).1.bassCooldown =
      if ip.isPlaying && !s.gameOver then
        (if 155 < effBass s ip ∧ decCD s.bassCooldown = 0 then 25 else decCD s.bassCooldown)
      else s.bassCooldown := by
  rw [update_eq]
  by_cases hact : (ip.isPlaying && !s.gameOver) = true
  · rw [if_pos hact, if_pos hact]
    by_cases hgate : frameGate s ip
    · rw [if_pos hgate, activeStep_bassCooldown]
    · rw [if_neg hgate, activeStep_bassCooldown]
  · rw [if_neg hact, if_neg hact]
    by_cases hgate : frameGate s ip
    · rw [if_pos hgate]
    · rw [if_neg hgate]

lemma update_trebleCooldown (s : GameState) (ip : FrameInput) :
    (update s ip).1.trebleCooldown =
      if ip.isPlaying && !s.gameOver then
        (if 100 < effTreble s ip ∧ decCD s.trebleCooldown = 0 then 15
         else decCD s.trebleCooldown)
      else s.trebleCooldown := by
  rw [update_eq]
  by_cases hact : (ip.isPlaying && !s.gameOver) = true
  · rw [if_pos hact, if_pos hact]
    by_cases hgate : frameGate s ip
    · rw [if_pos hgate, activeStep_trebleCooldown]
    · rw [if_neg hgate, activeStep_trebleCooldown]
  · rw [if_neg hact, if_neg hact]
    by_cases hgate : frameGate s ip
    · rw [if_pos hgate]
    · rw [if_neg hgate]

lemma update_bassCooldown_ge (s : GameState) (ip : FrameInput) :
    s.bassCooldown - 1 ≤ (update s ip).1.bassCooldown := by
  rw [update_bassCooldown]
  by_cases hact : (ip.isPlaying && !s.gameOver) = true
  · rw [if_pos hact]
    by_cases hsp : 155 < effBass s ip ∧ decCD s.bassCooldown = 0
    · rw [if_pos hsp]
      have h0 := hsp.2
      rw [decCD_eq] at h0
      omega
    · rw [if_neg hsp, decCD_eq]
  · rw [if_neg hact]
    omega

lemma update_trebleCooldown_ge (s : GameState) (ip : FrameInput) :
    s.trebleCooldown - 1 ≤ (update s ip).1.trebleCooldown := by
  rw [update_trebleCooldown]
  by_cases hact : (ip.isPlaying && !s.gameOver) = true
  · rw [if_pos hact]
    by_cases hsp : 100 < effTreble s ip ∧ decCD s.trebleCooldown = 0
    · rw [if_pos hsp]
      have h0 := hsp.2
      rw [decCD_eq] at h0
      omega
    · rw [if_neg hsp, decCD_eq]
  · rw [if_neg hact]
    omega

@[simp] lemma jumpIntent_bassCooldown (s : GameState) (b : Bool) :
    (jumpIntent s b).bassCooldown = s.bassCooldown := by
  unfold jumpIntent
  split
  · rfl
  · split <;> rfl

@[simp] lemma jumpIntent_trebleCooldown (s : GameState) (b : Bool) :
    (jumpIntent s b).trebleCooldown = s.trebleCooldown := by
  unfold jumpIntent
  split
  · rfl
  · split <;> rfl

@[simp] lemma resetEffect_bassCooldown (s : GameState) (b : Bool) :
    (resetEffect s b).1.bassCooldown = s.bassCooldown := by
  unfold resetEffect
  split
  · rfl
  · split <;> rfl

@[simp] lemma resetEffect_trebleCooldown (s : GameState) (b : Bool) :
    (resetEffect s b).1.trebleCooldown = s.trebleCooldown := by
  unfold resetEffect
  split
  · rfl
  · split <;> rfl

lemma applyEvent_bassCooldown_ge (s : GameState) (ev : GameEvent) :
    s.bassCooldown - 1 ≤ (applyEvent s ev).bassCooldown ∧
    (isFrameEv ev = false → (applyEvent s ev).bassCooldown = s.bassCooldown) := by
  cases ev with
  | frame ip =>
      exact ⟨update_bassCooldown_ge s ip, fun h => by simp [isFrameEv] at h⟩
  | jump b => exact ⟨by simp [applyEvent], fun _ => by simp [applyEvent]⟩
  | playCommand => exact ⟨by simp [applyEvent], fun _ => by simp [applyEvent]⟩
  | pauseCommand => exact ⟨by simp [applyEvent], fun _ => by simp [applyEvent]⟩

lemma applyEvent_trebleCooldown_ge (s : GameState) (ev : GameEvent) :
    s.trebleCooldown - 1 ≤ (applyEvent s ev).trebleCooldown ∧
    (isFrameEv ev = false → (applyEvent s ev).trebleCooldown = s.trebleCooldown) := by
  cases ev with
  | frame ip =>
      exact ⟨update_trebleCooldown_ge s ip, fun h => by simp [isFrameEv] at h⟩
  | jump b => exact ⟨by simp [applyEvent], fun _ => by simp [applyEvent]⟩
  | playCommand => exact ⟨by simp [applyEvent], fun _ => by simp [applyEvent]⟩
  | pauseCommand => exact ⟨by simp [applyEvent], fun _ => by simp [applyEvent]⟩

lemma applyEvents_bassCooldown (l : List GameEvent) :
    ∀ s : GameState, s.bassCooldown - l.countP isFrameEv ≤ (applyEvents s l).bassCooldown := by
  induction l with
  | nil => intro s; simp [applyEvents]
  | cons ev l ih =>
      intro s
      have h2 := ih (applyEvent s ev)
      have h3 : applyEvents s (ev :: l) = applyEvents (applyEvent s ev) l := rfl
      rw [h3, List.countP_cons]
      by_cases hf : isFrameEv ev = true
      · have h1 := (applyEvent_bassCooldown_ge s ev).1
        simp only [hf, if_true]
        omega
      · have h1 := (applyEvent_bassCooldown_ge s ev).2 (by simpa using hf)
        rw [h1] at h2
        simp only [hf]
        omega

lemma applyEvents_trebleCooldown (l : List GameEvent) :
    ∀ s : GameState,
      s.trebleCooldown - l.countP isFrameEv ≤ (applyEvents s l).trebleCooldown := by
  induction l with
  | nil => intro s; simp [applyEvents]
  | cons ev l ih =>
      intro s
      have h2 := ih (applyEvent s ev)
      have h3 : applyEvents s (ev :: l) = applyEvents (applyEvent s ev) l := rfl
      rw [h3, List.countP_cons]
      by_cases hf : isFrameEv ev = true
      · have h1 := (applyEvent_trebleCooldown_ge s ev).1
        simp only [hf, if_true]
        omega
      · have h1 := (applyEvent_trebleCooldown_ge s ev).2 (by simpa using hf)
        rw [h1] at h2
        simp only [hf]
        omega

lemma no_obstacle_spawn_of_cd (s : GameState) (ip : FrameInput)
    (h : 2 ≤ s.bassCooldown) : frameSpawnsObstacle s ip = false := by
  have hd : decide (decCD s.bassCooldown = 0) = false := by
    rw [decCD_eq]
    simp only [decide_eq_false_iff_not]
    omega
  simp [frameSpawnsObstacle, hd]

lemma no_coin_spawn_of_cd (s : GameState) (ip : FrameInput)
    (h : 2 ≤ s.trebleCooldown) : frameSpawnsCoin s ip = false := by
  have hd : decide (decCD s.trebleCooldown = 0) = false := by
    rw [decCD_eq]
    simp only [decide_eq_false_iff_not]
    omega
  simp [frameSpawnsCoin, hd]

lemma update_bassCooldown_of_spawn (s : GameState) (ip : FrameInput)
    (h : frameSpawnsObstacle s ip = true) : (update s ip).1.bassCooldown = 25 := by
  unfold frameSpawnsObstacle at h
  simp only [Bool.and_eq_true, decide_eq_true_eq] at h
  obtain ⟨⟨hact, hb⟩, hc⟩ := h
  have hact2 : (ip.isPlaying && !s.gameOver) = true := by
    rw [Bool.and_eq_true]
    exact hact
  rw [update_bassCooldown, if_pos hact2, if_pos ⟨hb, hc⟩]

lemma update_trebleCooldown_of_spawn (s : GameState) (ip : FrameInput)
    (h : frameSpawnsCoin s ip = true) : (update s ip).1.trebleCooldown = 15 := by
  unfold frameSpawnsCoin at h
  simp only [Bool.and_eq_true, decide_eq_true_eq] at h
  obtain ⟨⟨hact, ht⟩, hc⟩ := h
  have hact2 : (ip.isPlaying && !s.gameOver) = true := by
    rw [Bool.and_eq_true]
    exact hact
  rw [update_trebleCooldown, if_pos hact2, if_pos ⟨ht, hc⟩]

/-- C5: after an obstacle-spawning frame, no obstacle can spawn in a frame
that is reached over any interleaving of events (frames, jump intents,
play/pause commands — none of which reset a cooldown) containing at most 23
further frames, so the 25th frame is the earliest possible next obstacle
spawn: consecutive obstacle spawns are ≥ 25 frames apart.  Likewise for
coins with at most 13 intermediate frames and a 15-frame gap.  The cooldowns
decrement by 1 per active frame, floored at 0, are reset to 25 / 15 on
spawn, and spawning is gated on the decremented cooldown reaching 0. -/
theorem C5_spawn_gap (s : GameState) (ip : FrameInput) (l : List GameEvent)
    (ip2 : FrameInput) :
    (frameSpawnsObstacle s ip = true → l.countP isFrameEv ≤ 23 →
      frameSpawnsObstacle (applyEvents (update s ip).1 l) ip2 = false) ∧
    (frameSpawnsCoin s ip = true → l.countP isFrameEv ≤ 13 →
      frameSpawnsCoin (applyEvents (update s ip).1 l) ip2 = false) := by
  constructor
  · intro hs hl
    have h25 := update_bassCooldown_of_spawn s ip hs
    have hge := applyEvents_bassCooldown l (update s ip).1
    rw [h25] at hge
    exact no_obstacle_spawn_of_cd _ ip2 (by omega)
  · intro hs hl
    have h15 := update_trebleCooldown_of_spawn s ip hs
    have hge := applyEvents_trebleCooldown l (update s ip).1
    rw [h15] at hge
    exact no_coin_spawn_of_cd _ ip2 (by omega)

/-- C5 witness: a frame that spawns both an obstacle and a coin from the
initial state; the immediately following frame can spawn neither. -/
theorem C5_spawn_gap_witness :
    frameSpawnsObstacle initState ⟨true, true, 200, 120, 0, true⟩ = true ∧
    frameSpawnsCoin initState ⟨true, true, 200, 120, 0, true⟩ = true ∧
    frameSpawnsObstacle
      (applyEvents (update initState ⟨true, true, 200, 120, 0, true⟩).1 [])
      ⟨true, true, 200, 120, 0, true⟩ = false ∧
    frameSpawnsCoin
      (applyEvents (update initState ⟨true, true, 200, 120, 0, true⟩).1 [])
      ⟨true, true, 200, 120, 0, true⟩ = false :=
  ⟨by decide, by decide,
    (C5_spawn_gap initState ⟨true, true, 200, 120, 0, true⟩ []
        ⟨true, true, 200, 120, 0, true⟩).1 (by decide) (by decide),
    (C5_spawn_gap initState ⟨true, true, 200, 120, 0, true⟩ []
        ⟨true, true, 200, 120, 0, true⟩).2 (by decide) (by decide)⟩

/-- C9 witness: the spawn at the initial state with bass 200. -/
theorem C9_bass_spawn_witness :
    (155 : ℚ) < 200 ∧ initState.bassCooldown = 0 ∧
    spawnObstacle initState 200 =
      { initState with
          entities := initState.entities ++
            [{ id := initState.nextId, x := SPAWN_X, y := initState.groundY - 30,
               w := 24, h := 30, type := EntityType.obstacle, color := obstacleColor,
               collected := false }]
          nextId := initState.nextId + 1
          bassCooldown := 25 } :=
  ⟨by decide, rfl, (C9_bass_spawn initState 200 (by decide) rfl).2.1⟩

end RhythmRunner
